import Mathlib

/-
Shallow embedding of the domain-validation / analytics core of the
exam-management backend (FastAPI + SQLAlchemy service layer).

Conventions of the embedding:
  * The backing store is an explicit `Store` value holding the rows of each
    table; every repository read becomes a pure function over `Store`, every
    service mutation becomes `Store -> input -> Outcome result × Store`.
  * Timestamps (`datetime`) are embedded as integers; the injected clock
    `datetime.now()` becomes an explicit `now : Int` argument.
  * Monetary amounts and scores (`Decimal` / `float`) are embedded as `Rat`.
  * `HTTPException(status_code, detail)` becomes `Outcome.err code detail`.
  * A Python runtime fault that is not an `HTTPException` (an `AttributeError`
    from reading an attribute that the pydantic schema / ORM model does not
    define, or a `TypeError` from subscripting a non-list) becomes
    `Outcome.crash msg`.  Several service functions in the sources read
    attributes that no layer of the repository defines (the `Exam` model and
    its schemas define neither `capacity`, `status`, `current_registrations`
    nor `price`; `PaymentCreate` defines no `amount`), so those code paths are
    embedded as the fault the interpreter raises there.
  * `core/schemas/base.py` (`BaseSchema`) is absent from the sources.
    Modelled from the spec: request/response records are plain data records
    mirroring the declared fields ("Entity field shapes mirror the Data Model
    attributes exactly"); reading an undeclared attribute of a record faults,
    and partial updates expose only the explicitly supplied fields
    (`model_dump(exclude_unset=True)`).
  * Inert server-assigned timestamp columns (`created_at`, `registered_at`,
    `released_at`, `report_generated_at`) are read by none of the rules
    embedded here and are omitted from the records; `payment_date` is kept
    because the payment partial update can set it.
-/

/-- Result of one service call: a successful value, an
`HTTPException(status_code, detail)`, or a non-HTTP Python runtime fault. -/
inductive Outcome (α : Type) where
  | ok : α → Outcome α
  | err : Nat → String → Outcome α
  | crash : String → Outcome α
  deriving DecidableEq, Repr

/-- `true` exactly on the success constructor. -/
def Outcome.isOk {α : Type} : Outcome α → Bool
  | .ok _ => true
  | .err _ _ => false
  | .crash _ => false

/-- Row of `users` as exposed by `UserResponse` (id, username, email, role). -/
structure UserResponse where
  id : Nat
  username : String
  email : String
  role : String
  deriving DecidableEq, Repr

/-- Row of `locations` as exposed by `LocationResponse`. -/
structure LocationResponse where
  id : Nat
  name : String
  address : String
  capacity : Int
  deriving DecidableEq, Repr

/-- Row of `exams` as exposed by `ExamResponse` (core/schemas/exams.py):
`subject`, `date`, `cost`, `location_id`, `organizer_id`, `id`.
Note: neither the ORM model (core/models/exams.py) nor any exam schema
defines `capacity`, `status`, `current_registrations` or `price`. -/
structure ExamResponse where
  id : Nat
  subject : String
  date : Int
  cost : Rat
  location_id : Nat
  organizer_id : Nat
  deriving DecidableEq, Repr

/-- Row of `registrations` as exposed by `RegistrationResponse`. -/
structure RegistrationResponse where
  id : Nat
  user_id : Nat
  exam_id : Nat
  status : String
  payment_status : String
  deriving DecidableEq, Repr

/-- Row of `payments` as exposed by `PaymentResponse`. -/
structure PaymentResponse where
  id : Nat
  user_id : Nat
  exam_id : Nat
  amount : Rat
  status : String
  payment_date : Option Int
  deriving DecidableEq, Repr

/-- Row of `results` as exposed by `ResultResponse` (score and grade are
nullable columns in core/models/results.py). -/
structure ResultResponse where
  id : Nat
  user_id : Nat
  exam_id : Nat
  score : Option Rat
  grade : Option String
  deriving DecidableEq, Repr

/-- Row of `analytics` as exposed by `AnalyticResponse`. -/
structure AnalyticResponse where
  id : Nat
  exam_id : Nat
  total_registrations : Int
  total_paid : Int
  total_unpaid : Int
  average_score : Option Rat
  deriving DecidableEq, Repr

/-- The backing store: one list of rows per table, plus the next identity
value the storage layer will assign. -/
structure Store where
  users : List UserResponse
  locations : List LocationResponse
  exams : List ExamResponse
  registrations : List RegistrationResponse
  payments : List PaymentResponse
  results : List ResultResponse
  analytics : List AnalyticResponse
  next_id : Nat
  deriving DecidableEq, Repr

/- ------------------------------------------------------------------ -/
/- Repository reads (repositories/<entity>.py): pure SELECTs.          -/
/- ------------------------------------------------------------------ -/

/-- `UserRepository.get_user_by_id`. -/
def get_user_by_id (s : Store) (user_id : Nat) : Option UserResponse :=
  s.users.find? (fun u => u.id == user_id)

/-- `LocationRepository.get_location_by_id`. -/
def get_location_by_id (s : Store) (location_id : Nat) : Option LocationResponse :=
  s.locations.find? (fun l => l.id == location_id)

/-- `ExamRepository.get_exam_by_id`. -/
def get_exam_by_id (s : Store) (exam_id : Nat) : Option ExamResponse :=
  s.exams.find? (fun e => e.id == exam_id)

/-- `RegistrationRepository.get_user_exam_registration`
(`SELECT ... WHERE user_id == u AND exam_id == e`, `scalar_one_or_none`). -/
def get_user_exam_registration (s : Store) (user_id exam_id : Nat) :
    Option RegistrationResponse :=
  s.registrations.find? (fun r => r.user_id == user_id && r.exam_id == exam_id)

/-- `RegistrationRepository.get_exam_registrations`. -/
def get_exam_registrations (s : Store) (exam_id : Nat) : List RegistrationResponse :=
  s.registrations.filter (fun r => r.exam_id == exam_id)

/-- `PaymentRepository.get_payment_by_id`. -/
def get_payment_by_id (s : Store) (payment_id : Nat) : Option PaymentResponse :=
  s.payments.find? (fun p => p.id == payment_id)

/-- `PaymentRepository.get_user_exam_payment`. -/
def get_user_exam_payment (s : Store) (user_id exam_id : Nat) : Option PaymentResponse :=
  s.payments.find? (fun p => p.user_id == user_id && p.exam_id == exam_id)

/-- `ResultRepository.get_user_exam_result`. -/
def get_user_exam_result (s : Store) (user_id exam_id : Nat) : Option ResultResponse :=
  s.results.find? (fun r => r.user_id == user_id && r.exam_id == exam_id)

/-- `ResultRepository.get_exam_results`. -/
def get_exam_results (s : Store) (exam_id : Nat) : List ResultResponse :=
  s.results.filter (fun r => r.exam_id == exam_id)

/-- `AnalyticRepository.get_exam_analytics`
(`SELECT ... WHERE exam_id == e`, `scalar_one_or_none`: a single optional
record, not a list). -/
def get_exam_analytics (s : Store) (exam_id : Nat) : Option AnalyticResponse :=
  s.analytics.find? (fun a => a.exam_id == exam_id)

/- ------------------------------------------------------------------ -/
/- ResultService.calculate_grade (services/result_service.py)          -/
/- ------------------------------------------------------------------ -/

/-- `ResultService.calculate_grade(score)`: pure grade banding. -/
def calculate_grade (score : Rat) : String :=
  if score >= 90 then "A"
  else if score >= 80 then "B"
  else if score >= 70 then "C"
  else if score >= 60 then "D"
  else "F"

/-- Numeric rank of a letter grade (A best), used to express that the grade
is a monotone step function of the score. -/
def grade_rank (g : String) : Nat :=
  if g == "A" then 4
  else if g == "B" then 3
  else if g == "C" then 2
  else if g == "D" then 1
  else 0

/- ------------------------------------------------------------------ -/
/- Create / partial-update request records (core/schemas/<entity>.py)  -/
/- ------------------------------------------------------------------ -/

/-- `ExamCreate` (core/schemas/exams.py): `subject`, `date`, `cost`,
`location_id`, `organizer_id`.  The schema declares no `capacity` and no
`price` field. -/
structure ExamCreate where
  subject : String
  date : Int
  cost : Rat
  location_id : Nat
  organizer_id : Nat
  deriving DecidableEq, Repr

/-- `RegistrationCreate` (core/schemas/registrations.py). -/
structure RegistrationCreate where
  user_id : Nat
  exam_id : Nat
  status : String
  payment_status : String
  deriving DecidableEq, Repr

/-- `PaymentCreate` (core/schemas/payments.py): `user_id`, `exam_id`,
`status`.  The schema declares no `amount` field. -/
structure PaymentCreate where
  user_id : Nat
  exam_id : Nat
  status : String
  deriving DecidableEq, Repr

/-- `ResultCreate` (core/schemas/results.py): `score` is a required `int`
field there, so `result_data.score is not None` always holds in
`create_result`. -/
structure ResultCreate where
  user_id : Nat
  exam_id : Nat
  score : Int
  grade : String
  deriving DecidableEq, Repr

/-- `AnalyticCreate` (core/schemas/analytics.py). -/
structure AnalyticCreate where
  exam_id : Nat
  total_registrations : Int
  total_paid : Int
  total_unpaid : Int
  average_score : Option Rat
  deriving DecidableEq, Repr

/-- `AnalyticUpdate` (core/schemas/analytics.py): every field optional; the
outer `Option` is pydantic's set/unset distinction
(`model_dump(exclude_unset=True)`). -/
structure AnalyticUpdate where
  total_registrations : Option Int
  total_paid : Option Int
  total_unpaid : Option Int
  average_score : Option (Option Rat)
  deriving DecidableEq, Repr

/-- `PaymentUpdate` (core/schemas/payments.py): optional `status` and
`payment_date`; the outer `Option` is the set/unset distinction. -/
structure PaymentUpdate where
  status : Option String
  payment_date : Option (Option Int)
  deriving DecidableEq, Repr

/- ------------------------------------------------------------------ -/
/- ExamService.create_exam (services/exam_service.py, lines 33-63)     -/
/- ------------------------------------------------------------------ -/

/-- `ExamService.create_exam(exam_data)`.  Checks in source order:
(1) `exam_data.date <= datetime.now()` → 400; (2) location must exist → 404;
(3) the source then evaluates `exam_data.capacity > location.capacity`, but
`ExamCreate` declares no `capacity` attribute (and no `price` for the later
`exam_data.price <= 0` check), so the interpreter raises `AttributeError`
there and the cost check and the repository write are unreachable. -/
def create_exam (now : Int) (s : Store) (exam_data : ExamCreate) :
    Outcome ExamResponse × Store :=
  if exam_data.date <= now then
    (.err 400 "Exam date must be in the future", s)
  else
    match get_location_by_id s exam_data.location_id with
    | none =>
      (.err 404 ("Location with id " ++ toString exam_data.location_id ++ " not found"), s)
    | some _location =>
      (.crash "AttributeError: 'ExamCreate' object has no attribute 'capacity'", s)

/- ------------------------------------------------------------------ -/
/- RegistrationService (services/registration_service.py)              -/
/- ------------------------------------------------------------------ -/

/-- `RegistrationService.create_registration(registration_data)` (lines
36-85).  Checks in source order: user exists → 404; exam exists → 404;
`exam.date <= datetime.now()` → 400 "Cannot register for past exam"; the
source then evaluates `exam.status != "active"`, but no layer defines a
`status` attribute on an exam record (core/models/exams.py has no such
column, `ExamResponse` no such field), so the interpreter raises
`AttributeError` there and the capacity check, the duplicate-registration
check and the repository write are unreachable. -/
def create_registration (now : Int) (s : Store)
    (registration_data : RegistrationCreate) :
    Outcome RegistrationResponse × Store :=
  match get_user_by_id s registration_data.user_id with
  | none =>
    (.err 404 ("User with id " ++ toString registration_data.user_id ++ " not found"), s)
  | some _user =>
    match get_exam_by_id s registration_data.exam_id with
    | none =>
      (.err 404 ("Exam with id " ++ toString registration_data.exam_id ++ " not found"), s)
    | some exam =>
      if exam.date <= now then
        (.err 400 "Cannot register for past exam", s)
      else
        (.crash "AttributeError: 'ExamResponse' object has no attribute 'status'", s)

/-- Value returned by `check_registration_availability`. -/
structure Availability where
  available : Bool
  reason : String
  deriving DecidableEq, Repr

/-- `RegistrationService.check_registration_availability(user_id, exam_id)`
(lines 154-189).  The source fetches the exam through the repository (which
returns `None` for a missing exam) and never re-checks it: with an existing
registration it answers "Already registered" without touching the exam; with
no registration it evaluates `exam.date <= datetime.now()` — an
`AttributeError` on `None` when the exam is missing — and past that it
evaluates `exam.status`, an attribute no exam record defines, so the
"not active" / "fully booked" / available answers are unreachable. -/
def check_registration_availability (now : Int) (s : Store)
    (user_id exam_id : Nat) : Outcome Availability :=
  match get_user_exam_registration s user_id exam_id with
  | some _existing => .ok { available := false, reason := "Already registered" }
  | none =>
    match get_exam_by_id s exam_id with
    | none => .crash "AttributeError: 'NoneType' object has no attribute 'date'"
    | some exam =>
      if exam.date <= now then
        .ok { available := false, reason := "Exam date has passed" }
      else
        .crash "AttributeError: 'ExamResponse' object has no attribute 'status'"

/- ------------------------------------------------------------------ -/
/- PaymentService (services/payment_service.py)                        -/
/- ------------------------------------------------------------------ -/

/-- `PaymentService.create_payment(payment_data)` (lines 40-93).  Checks in
source order: user exists → 404; exam exists → 404; registration for the
pair exists → 400 "User is not registered for this exam"; no existing
payment for the pair → 400 "Payment already exists for this registration";
the source then evaluates `payment_data.amount != exam.price`, but
`PaymentCreate` declares no `amount` attribute (and exam records define no
`price`), so the interpreter raises `AttributeError` there and the status
check and the repository write are unreachable. -/
def create_payment (s : Store) (payment_data : PaymentCreate) :
    Outcome PaymentResponse × Store :=
  match get_user_by_id s payment_data.user_id with
  | none =>
    (.err 404 ("User with id " ++ toString payment_data.user_id ++ " not found"), s)
  | some _user =>
    match get_exam_by_id s payment_data.exam_id with
    | none =>
      (.err 404 ("Exam with id " ++ toString payment_data.exam_id ++ " not found"), s)
    | some _exam =>
      match get_user_exam_registration s payment_data.user_id payment_data.exam_id with
      | none => (.err 400 "User is not registered for this exam", s)
      | some _registration =>
        match get_user_exam_payment s payment_data.user_id payment_data.exam_id with
        | some _existing => (.err 400 "Payment already exists for this registration", s)
        | none =>
          (.crash "AttributeError: 'PaymentCreate' object has no attribute 'amount'", s)

/-- `PaymentRepository.update_payment(payment_id, payment_data)`: partial
update — only the explicitly supplied fields are written
(`model_dump(exclude_unset=True)`); `None` if the payment is absent. -/
def repo_update_payment (s : Store) (payment_id : Nat)
    (payment_data : PaymentUpdate) : Option (PaymentResponse × Store) :=
  match get_payment_by_id s payment_id with
  | none => none
  | some p =>
    let p' : PaymentResponse :=
      { p with
        status := match payment_data.status with
          | some st => st
          | none => p.status
        payment_date := match payment_data.payment_date with
          | some d => d
          | none => p.payment_date }
    some (p', { s with
      payments := s.payments.map (fun q => if q.id == payment_id then p' else q) })

/-- `PaymentService.update_payment(payment_id, payment_data)` (lines
95-126).  Payment must exist → 404; a supplied (truthy) status must be one
of the four valid values → 400; if the new status is "completed" the source
looks up the registration for the payment's (user, exam) pair and, when one
is found, calls `RegistrationRepository.update_registration(registration.id,
{"payment_status": "paid"})` with a plain dict — the repository then calls
`registration_data.model_dump(exclude_unset=True)` (repositories/
registrations.py line 56), which raises `AttributeError` on a dict, so that
path faults before any write; when no registration is found the side effect
is silently skipped and the payment update proceeds. -/
def update_payment (s : Store) (payment_id : Nat)
    (payment_data : PaymentUpdate) : Outcome PaymentResponse × Store :=
  match get_payment_by_id s payment_id with
  | none =>
    (.err 404 ("Payment with id " ++ toString payment_id ++ " not found"), s)
  | some current_payment =>
    if (match payment_data.status with
        | some st => st != "" &&
            !(st == "pending" || st == "completed" || st == "failed" || st == "refunded")
        | none => false) then
      (.err 400 "Invalid payment status", s)
    else if payment_data.status == some "completed"
        && (get_user_exam_registration s current_payment.user_id
              current_payment.exam_id).isSome then
      (.crash "AttributeError: 'dict' object has no attribute 'model_dump'", s)
    else
      match repo_update_payment s payment_id payment_data with
      | none =>
        (.err 404 ("Payment with id " ++ toString payment_id ++ " not found"), s)
      | some (p', s') => (.ok p', s')

/- ------------------------------------------------------------------ -/
/- ResultService.create_result (services/result_service.py, 39-92)     -/
/- ------------------------------------------------------------------ -/

/-- `ResultService.create_result(result_data)`.  Checks in source order:
user exists → 404; exam exists → 404; registration for the pair exists →
400 "User is not registered for this exam"; registration status must be
"confirmed" → 400; no existing result for the pair → 400; score within
[0, 100] → 400 (`result_data.score` is a required `int`, so the
`is not None` guard always holds); then the repository persists the row. -/
def create_result (s : Store) (result_data : ResultCreate) :
    Outcome ResultResponse × Store :=
  match get_user_by_id s result_data.user_id with
  | none =>
    (.err 404 ("User with id " ++ toString result_data.user_id ++ " not found"), s)
  | some _user =>
    match get_exam_by_id s result_data.exam_id with
    | none =>
      (.err 404 ("Exam with id " ++ toString result_data.exam_id ++ " not found"), s)
    | some _exam =>
      match get_user_exam_registration s result_data.user_id result_data.exam_id with
      | none => (.err 400 "User is not registered for this exam", s)
      | some registration =>
        if registration.status != "confirmed" then
          (.err 400 "Registration is not confirmed", s)
        else
          match get_user_exam_result s result_data.user_id result_data.exam_id with
          | some _existing => (.err 400 "Result already exists for this user and exam", s)
          | none =>
            if result_data.score < 0 || result_data.score > 100 then
              (.err 400 "Score must be between 0 and 100", s)
            else
              let row : ResultResponse :=
                { id := s.next_id
                  user_id := result_data.user_id
                  exam_id := result_data.exam_id
                  score := some (result_data.score : Rat)
                  grade := some result_data.grade }
              (.ok row, { s with results := s.results ++ [row], next_id := s.next_id + 1 })

/- ------------------------------------------------------------------ -/
/- AnalyticService (services/analytic_service.py)                      -/
/- ------------------------------------------------------------------ -/

/-- `AnalyticService.create_analytic(analytic_data)` (lines 39-58): exam
must exist → 404; no analytics record may already exist for the exam →
400 "Analytics already exists for this exam"; then the repository persists
the supplied figures unchanged (no arithmetic validation of the counts). -/
def create_analytic (s : Store) (analytic_data : AnalyticCreate) :
    Outcome AnalyticResponse × Store :=
  match get_exam_by_id s analytic_data.exam_id with
  | none =>
    (.err 404 ("Exam with id " ++ toString analytic_data.exam_id ++ " not found"), s)
  | some _exam =>
    match get_exam_analytics s analytic_data.exam_id with
    | some _existing => (.err 400 "Analytics already exists for this exam", s)
    | none =>
      let row : AnalyticResponse :=
        { id := s.next_id
          exam_id := analytic_data.exam_id
          total_registrations := analytic_data.total_registrations
          total_paid := analytic_data.total_paid
          total_unpaid := analytic_data.total_unpaid
          average_score := analytic_data.average_score }
      (.ok row, { s with analytics := s.analytics ++ [row], next_id := s.next_id + 1 })

/-- `AnalyticService.update_analytic(analytic_id, analytic_data)` (lines
60-74) composed with `AnalyticRepository.update_analytic`: the record must
exist → 404; only the explicitly supplied fields are written
(`model_dump(exclude_unset=True)`). -/
def update_analytic (s : Store) (analytic_id : Nat)
    (analytic_data : AnalyticUpdate) : Outcome AnalyticResponse × Store :=
  match s.analytics.find? (fun a => a.id == analytic_id) with
  | none =>
    (.err 404 ("Analytic with id " ++ toString analytic_id ++ " not found"), s)
  | some a =>
    let a' : AnalyticResponse :=
      { a with
        total_registrations := (analytic_data.total_registrations).getD a.total_registrations
        total_paid := (analytic_data.total_paid).getD a.total_paid
        total_unpaid := (analytic_data.total_unpaid).getD a.total_unpaid
        average_score := (analytic_data.average_score).getD a.average_score }
    (.ok a', { s with
      analytics := s.analytics.map (fun b => if b.id == analytic_id then a' else b) })

/-- `AnalyticService.generate_exam_analytics(exam_id)` (lines 81-125).
Exam must exist → 404.  Aggregation: `total_registrations` is the number of
the exam's registrations; `total_paid` counts those with
`payment_status == "paid"`; `total_unpaid = total_registrations -
total_paid`; `average_score` is the mean of the non-null scores of the
exam's results, or `None` when either list is empty.  Upsert: when no
analytics record exists for the exam the figures are persisted through
`create_analytic`; when one exists the source evaluates
`existing_analytic[0].id`, but `AnalyticRepository.get_exam_analytics`
returns a single optional record (`scalar_one_or_none`), not a list, so
subscripting it raises `TypeError` and the `update_analytic` call is
unreachable. -/
def generate_exam_analytics (s : Store) (exam_id : Nat) :
    Outcome AnalyticResponse × Store :=
  match get_exam_by_id s exam_id with
  | none =>
    (.err 404 ("Exam with id " ++ toString exam_id ++ " not found"), s)
  | some _exam =>
    let registrations := get_exam_registrations s exam_id
    let total_registrations : Int := registrations.length
    let total_paid : Int :=
      (registrations.filter (fun r => r.payment_status == "paid")).length
    let total_unpaid : Int := total_registrations - total_paid
    let results := get_exam_results s exam_id
    let average_score : Option Rat :=
      if results.isEmpty then none
      else
        let scores := results.filterMap (fun r => r.score)
        if scores.isEmpty then none
        else some (scores.sum / (scores.length : Rat))
    let analytic_data : AnalyticCreate :=
      { exam_id := exam_id
        total_registrations := total_registrations
        total_paid := total_paid
        total_unpaid := total_unpaid
        average_score := average_score }
    match get_exam_analytics s exam_id with
    | some _existing =>
      (.crash "TypeError: 'AnalyticResponse' object is not subscriptable", s)
    | none => create_analytic s analytic_data

/- ------------------------------------------------------------------ -/
/- Concrete fixtures used by counterexamples and witnesses.            -/
/- The clock is fixed at `now = 100`; `date = 200` is a future exam.   -/
/- ------------------------------------------------------------------ -/

/-- Fixture: a stored user. -/
def user1 : UserResponse :=
  { id := 1, username := "ivan", email := "ivan@example.com", role := "student" }

/-- Fixture: a stored location with capacity 100. -/
def location1 : LocationResponse :=
  { id := 1, name := "Main Hall", address := "Campus 1", capacity := 100 }

/-- Fixture: a stored exam whose date (200) is in the future of the fixed
clock value 100. -/
def exam1 : ExamResponse :=
  { id := 1, subject := "Mathematics", date := 200, cost := 100,
    location_id := 1, organizer_id := 1 }

/-- Fixture: a confirmed, paid registration of `user1` for `exam1`. -/
def registration1 : RegistrationResponse :=
  { id := 10, user_id := 1, exam_id := 1, status := "confirmed",
    payment_status := "paid" }

/-- Fixture: an unpaid pending registration of user 2 for `exam1`. -/
def registration2 : RegistrationResponse :=
  { id := 11, user_id := 2, exam_id := 1, status := "pending",
    payment_status := "unpaid" }

/-- Fixture: a pre-existing analytics row for `exam1`. -/
def analytic1 : AnalyticResponse :=
  { id := 5, exam_id := 1, total_registrations := 0, total_paid := 0,
    total_unpaid := 0, average_score := none }

/-- Fixture: a pending payment of `user1` for `exam1`. -/
def payment1 : PaymentResponse :=
  { id := 7, user_id := 1, exam_id := 1, amount := 100, status := "pending",
    payment_date := none }

/-- Fixture store: one user, one location, one future exam; no
registrations, payments, results or analytics. -/
def base_store : Store :=
  { users := [user1], locations := [location1], exams := [exam1],
    registrations := [], payments := [], results := [], analytics := [],
    next_id := 20 }

/- ------------------------------------------------------------------ -/
/- C2                                                                  -/
/- ------------------------------------------------------------------ -/

/-- C2: `calculate_grade` is a total deterministic function of the score:
"A" for scores ≥ 90, "B" on [80, 90), "C" on [70, 80), "D" on [60, 70),
"F" below 60; boundaries are inclusive on the lower edge (90 is "A",
89.9 is "B", 59.9 is "F"); and via `grade_rank` the grade is a
monotonically-non-increasing step function of decreasing score (a higher
score never gets a strictly worse letter). -/
theorem calculate_grade_banding :
    (∀ s : ℚ, (90 ≤ s → calculate_grade s = "A") ∧
      (80 ≤ s ∧ s < 90 → calculate_grade s = "B") ∧
      (70 ≤ s ∧ s < 80 → calculate_grade s = "C") ∧
      (60 ≤ s ∧ s < 70 → calculate_grade s = "D") ∧
      (s < 60 → calculate_grade s = "F")) ∧
    calculate_grade 90 = "A" ∧
    calculate_grade (899/10) = "B" ∧
    calculate_grade (599/10) = "F" ∧
    (∀ s t : ℚ, s ≤ t →
      grade_rank (calculate_grade s) ≤ grade_rank (calculate_grade t)) := by
  refine ⟨fun s => ⟨?_, ?_, ?_, ?_, ?_⟩,
    by norm_num [calculate_grade], by norm_num [calculate_grade],
    by norm_num [calculate_grade], fun s t hst => ?_⟩
  · intro h
    simp only [calculate_grade, ge_iff_le]
    rw [if_pos h]
  · rintro ⟨h1, h2⟩
    simp only [calculate_grade, ge_iff_le]
    rw [if_neg (by linarith), if_pos h1]
  · rintro ⟨h1, h2⟩
    simp only [calculate_grade, ge_iff_le]
    rw [if_neg (by linarith), if_neg (by linarith), if_pos h1]
  · rintro ⟨h1, h2⟩
    simp only [calculate_grade, ge_iff_le]
    rw [if_neg (by linarith), if_neg (by linarith), if_neg (by linarith), if_pos h1]
  · intro h
    simp only [calculate_grade, ge_iff_le]
    rw [if_neg (by linarith), if_neg (by linarith), if_neg (by linarith),
      if_neg (by linarith)]
  · simp only [calculate_grade, ge_iff_le]
    split_ifs <;> first | decide | (exfalso; linarith)

/-- Witness for C2: the B band applied at the concrete score 85. -/
theorem calculate_grade_banding_witness :
    ((80 : ℚ) ≤ 85 ∧ (85 : ℚ) < 90) ∧ calculate_grade 85 = "B" :=
  ⟨⟨by decide, by decide⟩,
    (calculate_grade_banding.1 85).2.1 ⟨by decide, by decide⟩⟩

/- ------------------------------------------------------------------ -/
/- Further fixtures                                                    -/
/- ------------------------------------------------------------------ -/

/-- Fixture: a stored exam whose date (50) is already past the fixed clock
value 100. -/
def exam_past : ExamResponse :=
  { id := 2, subject := "History", date := 50, cost := 100,
    location_id := 1, organizer_id := 1 }

/-- Fixture store: `base_store` plus the past exam. -/
def past_exam_store : Store :=
  { base_store with exams := [exam1, exam_past] }

/-- Fixture store: `base_store` plus `registration1` (user 1 registered for
exam 1). -/
def reg_store : Store :=
  { base_store with registrations := [registration1] }

/-- Fixture store: `base_store` plus a pre-existing analytics row for
exam 1. -/
def analytic_store : Store :=
  { base_store with analytics := [analytic1] }

/-- Fixture store: registration and pending payment for (user 1, exam 1). -/
def pay_store : Store :=
  { base_store with registrations := [registration1], payments := [payment1] }

/-- Fixture store: pending payment for (user 1, exam 1) but no registration
row. -/
def pay_store_noreg : Store :=
  { base_store with payments := [payment1] }

/- ------------------------------------------------------------------ -/
/- C3                                                                  -/
/- ------------------------------------------------------------------ -/

/-- C3: the first two checks of exam create behave as claimed (past date →
400 InvalidArgument, missing location → 404 NotFound), but a request that
passes them faults with `AttributeError` instead of running the capacity and
cost checks: `create_exam` reads `exam_data.capacity` (and later
`exam_data.price`), attributes the `ExamCreate` schema does not define, so
no creation request can ever reach the repository write. -/
theorem create_exam_faults_before_capacity_check :
    create_exam 100 base_store
        { subject := "Physics", date := 50, cost := 100,
          location_id := 1, organizer_id := 1 } =
      (.err 400 "Exam date must be in the future", base_store) ∧
    create_exam 100 base_store
        { subject := "Physics", date := 200, cost := 100,
          location_id := 2, organizer_id := 1 } =
      (.err 404 "Location with id 2 not found", base_store) ∧
    create_exam 100 base_store
        { subject := "Physics", date := 200, cost := 100,
          location_id := 1, organizer_id := 1 } =
      (.crash "AttributeError: 'ExamCreate' object has no attribute 'capacity'",
        base_store) := by
  refine ⟨by decide, by decide, by decide⟩

/- ------------------------------------------------------------------ -/
/- C4                                                                  -/
/- ------------------------------------------------------------------ -/

/-- C4: the first three checks of registration create behave as claimed
(missing user → 404, missing exam → 404, past exam → 400 "Cannot register
for past exam"), but a request for an existing user and an existing future
exam faults with `AttributeError` at `exam.status` — no layer defines a
`status` attribute on exam records — so the active-status, capacity and
duplicate-registration checks are unreachable and no registration (first or
second) can ever be created or rejected with "already registered". -/
theorem create_registration_faults_before_status_check :
    create_registration 100 base_store
        { user_id := 9, exam_id := 1, status := "pending", payment_status := "unpaid" } =
      (.err 404 "User with id 9 not found", base_store) ∧
    create_registration 100 base_store
        { user_id := 1, exam_id := 9, status := "pending", payment_status := "unpaid" } =
      (.err 404 "Exam with id 9 not found", base_store) ∧
    create_registration 100 past_exam_store
        { user_id := 1, exam_id := 2, status := "pending", payment_status := "unpaid" } =
      (.err 400 "Cannot register for past exam", past_exam_store) ∧
    create_registration 100 base_store
        { user_id := 1, exam_id := 1, status := "pending", payment_status := "unpaid" } =
      (.crash "AttributeError: 'ExamResponse' object has no attribute 'status'",
        base_store) := by
  refine ⟨by decide, by decide, by decide, by decide⟩

/- ------------------------------------------------------------------ -/
/- C5                                                                  -/
/- ------------------------------------------------------------------ -/

/-- C5: the existence checks of payment create behave as claimed (no
registration → 400 "User is not registered for this exam", duplicate
payment → 400 "Payment already exists for this registration"), but a
request that passes them — existing user and exam, registration present,
no prior payment — faults with `AttributeError` at
`payment_data.amount != exam.price`: `PaymentCreate` defines no `amount`
attribute and exam records no `price`, so the amount-equality check can
never run, no InvalidArgument naming the required amount is ever produced,
and no payment can ever be persisted. -/
theorem create_payment_faults_before_amount_check :
    create_payment base_store { user_id := 1, exam_id := 1, status := "pending" } =
      (.err 400 "User is not registered for this exam", base_store) ∧
    create_payment pay_store { user_id := 1, exam_id := 1, status := "pending" } =
      (.err 400 "Payment already exists for this registration", pay_store) ∧
    create_payment reg_store { user_id := 1, exam_id := 1, status := "pending" } =
      (.crash "AttributeError: 'PaymentCreate' object has no attribute 'amount'",
        reg_store) := by
  refine ⟨by decide, by decide, by decide⟩

/- ------------------------------------------------------------------ -/
/- C6                                                                  -/
/- ------------------------------------------------------------------ -/

/-- C6: `check_registration_availability` answers "Already registered" and
"Exam date has passed" as claimed, but it does raise: for a missing exam
with no existing registration it faults dereferencing `None`
(`exam.date`), and for an existing, future-dated exam with no existing
registration it faults at `exam.status` (an attribute no exam record
defines), so the "not active" / "fully booked" / available answers are
unreachable. -/
theorem check_registration_availability_faults :
    check_registration_availability 100 reg_store 1 1 =
      .ok { available := false, reason := "Already registered" } ∧
    check_registration_availability 100 past_exam_store 1 2 =
      .ok { available := false, reason := "Exam date has passed" } ∧
    check_registration_availability 100 base_store 1 9 =
      .crash "AttributeError: 'NoneType' object has no attribute 'date'" ∧
    check_registration_availability 100 base_store 1 1 =
      .crash "AttributeError: 'ExamResponse' object has no attribute 'status'" := by
  refine ⟨by decide, by decide, by decide, by decide⟩

/- ------------------------------------------------------------------ -/
/- C7                                                                  -/
/- ------------------------------------------------------------------ -/

/-- C7: `generate_exam_analytics` is not idempotent in effect: on a store
with one paid registration and no analytics the first call succeeds and
stores the figures, but the second call — with no intervening changes —
takes the update path and faults with `TypeError` at
`existing_analytic[0]`, because `get_exam_analytics` returns a single
optional record (`scalar_one_or_none`), not a list; no second set of
figures is ever stored. -/
theorem generate_exam_analytics_second_call_faults :
    (generate_exam_analytics reg_store 1).fst =
      .ok { id := 20, exam_id := 1, total_registrations := 1, total_paid := 1,
            total_unpaid := 0, average_score := none } ∧
    generate_exam_analytics (generate_exam_analytics reg_store 1).snd 1 =
      (.crash "TypeError: 'AnalyticResponse' object is not subscriptable",
        (generate_exam_analytics reg_store 1).snd) := by
  refine ⟨by decide, by decide⟩

/- ------------------------------------------------------------------ -/
/- C10                                                                 -/
/- ------------------------------------------------------------------ -/

/-- C10: when a registration row exists for the payment's (user, exam)
pair, updating the payment to status "completed" does not set the
registration's payment_status to "paid" — it faults, because the service
passes the plain dict `{"payment_status": "paid"}` to
`RegistrationRepository.update_registration`, which calls
`.model_dump(exclude_unset=True)` on it — and the payment row is not
updated either; only when the registration lookup finds nothing does the
call proceed, updating the supplied status field and leaving every other
payment field (amount, payment_date, user, exam) and the rest of the store
unchanged. -/
theorem update_payment_completed_faults_with_registration :
    update_payment pay_store 7 { status := some "completed", payment_date := none } =
      (.crash "AttributeError: 'dict' object has no attribute 'model_dump'",
        pay_store) ∧
    update_payment pay_store_noreg 7
        { status := some "completed", payment_date := none } =
      (.ok { id := 7, user_id := 1, exam_id := 1, amount := 100,
             status := "completed", payment_date := none },
        { pay_store_noreg with
          payments := [{ id := 7, user_id := 1, exam_id := 1, amount := 100,
                         status := "completed", payment_date := none }] }) := by
  refine ⟨by decide, by decide⟩

/- ------------------------------------------------------------------ -/
/- C1                                                                  -/
/- ------------------------------------------------------------------ -/

/-- C1 (counterexample): for the existing exam 1 with zero results the
claim promises `average_score = null` "without error", but when an
analytics row already exists for the exam, `generate_exam_analytics`
errors — it faults subscripting the single optional record returned by
`get_exam_analytics` — instead of yielding any figures. -/
theorem generate_exam_analytics_existing_analytic_error :
    get_exam_by_id analytic_store 1 = some exam1 ∧
    get_exam_results analytic_store 1 = [] ∧
    (generate_exam_analytics analytic_store 1).fst =
      .crash "TypeError: 'AnalyticResponse' object is not subscriptable" := by
  refine ⟨by decide, by decide, by decide⟩

/-- C1 (amended): for every existing exam id with no pre-existing Analytic
record, `generate_exam_analytics` succeeds and stores total_registrations =
number of the exam's registrations, total_paid = number of those with
payment_status "paid", total_unpaid = total_registrations − total_paid, and
average_score = the arithmetic mean of the non-null scores of the exam's
results, or null when zero non-null scores exist; zero results give
average_score = null without error, and zero registrations give total_paid
= total_unpaid = 0.  (With a pre-existing Analytic record the call faults
instead, see the counterexample.) -/
theorem generate_exam_analytics_create_path_figures
    (s : Store) (ex_id : Nat) (e : ExamResponse)
    (hex : get_exam_by_id s ex_id = some e)
    (hnone : get_exam_analytics s ex_id = none) :
    ∃ a s',
      generate_exam_analytics s ex_id = (.ok a, s') ∧
      a.total_registrations = ((get_exam_registrations s ex_id).length : Int) ∧
      a.total_paid = (((get_exam_registrations s ex_id).filter
          (fun r => r.payment_status == "paid")).length : Int) ∧
      a.total_unpaid = a.total_registrations - a.total_paid ∧
      a.average_score =
        (if ((get_exam_results s ex_id).filterMap (fun r => r.score)) = []
         then none
         else some (((get_exam_results s ex_id).filterMap (fun r => r.score)).sum /
           ((((get_exam_results s ex_id).filterMap (fun r => r.score)).length : Int) : Rat))) ∧
      (get_exam_results s ex_id = [] → a.average_score = none) ∧
      (get_exam_registrations s ex_id = [] →
        a.total_paid = 0 ∧ a.total_unpaid = 0) ∧
      s'.analytics = s.analytics ++ [a] := by
  simp only [generate_exam_analytics, create_analytic, hex, hnone]
  refine ⟨_, _, rfl, rfl, rfl, rfl, ?_, ?_, ?_, rfl⟩
  · by_cases hres : get_exam_results s ex_id = []
    · simp [hres]
    · by_cases hsc : ((get_exam_results s ex_id).filterMap (fun r => r.score)) = []
      · simp [hsc, List.isEmpty_iff, hres]
      · simp [hsc, List.isEmpty_iff, hres]
  · intro hres
    simp [hres]
  · intro hregs
    simp [hregs]

/-- Witness for C1 (amended): the create path applied to the fixture store
(exam 1 exists, no registrations, no results, no analytics row). -/
theorem generate_exam_analytics_create_path_figures_witness :
    (get_exam_by_id base_store 1 = some exam1 ∧
      get_exam_analytics base_store 1 = none) ∧
    (∃ a s',
      generate_exam_analytics base_store 1 = (.ok a, s') ∧
      a.total_registrations = ((get_exam_registrations base_store 1).length : Int) ∧
      a.total_paid = (((get_exam_registrations base_store 1).filter
          (fun r => r.payment_status == "paid")).length : Int) ∧
      a.total_unpaid = a.total_registrations - a.total_paid ∧
      a.average_score =
        (if ((get_exam_results base_store 1).filterMap (fun r => r.score)) = []
         then none
         else some (((get_exam_results base_store 1).filterMap (fun r => r.score)).sum /
           ((((get_exam_results base_store 1).filterMap (fun r => r.score)).length : Int) : Rat))) ∧
      (get_exam_results base_store 1 = [] → a.average_score = none) ∧
      (get_exam_registrations base_store 1 = [] →
        a.total_paid = 0 ∧ a.total_unpaid = 0) ∧
      s'.analytics = base_store.analytics ++ [a]) :=
  ⟨⟨by decide, by decide⟩,
    generate_exam_analytics_create_path_figures base_store 1 exam1
      (by decide) (by decide)⟩

/- ------------------------------------------------------------------ -/
/- C8                                                                  -/
/- ------------------------------------------------------------------ -/

/-- C8 (counterexample): `create_analytic` performs no arithmetic
validation: for the existing exam 1 it accepts figures with total_paid = 5,
total_unpaid = 7, total_registrations = 1 and stores them, so
total_paid + total_unpaid = total_registrations is not an invariant of the
service's create operation. -/
theorem create_analytic_accepts_unbalanced_figures :
    create_analytic base_store
        { exam_id := 1, total_registrations := 1, total_paid := 5,
          total_unpaid := 7, average_score := none } =
      (.ok { id := 20, exam_id := 1, total_registrations := 1, total_paid := 5,
             total_unpaid := 7, average_score := none },
        { base_store with
          analytics := [{ id := 20, exam_id := 1, total_registrations := 1,
                          total_paid := 5, total_unpaid := 7,
                          average_score := none }],
          next_id := 21 }) ∧
    (5 : Int) + 7 ≠ 1 := by
  refine ⟨by decide, by decide⟩

/-- C8 (amended): every Analytic record that `generate_exam_analytics`
successfully computes and stores satisfies total_paid + total_unpaid =
total_registrations; the plain create (and update) operations persist
whatever figures the caller supplies, so the equation is not enforced
there (see the counterexample). -/
theorem generate_exam_analytics_balanced_figures
    (s : Store) (ex_id : Nat) (a : AnalyticResponse)
    (h : (generate_exam_analytics s ex_id).fst = .ok a) :
    a.total_paid + a.total_unpaid = a.total_registrations := by
  rcases hex : get_exam_by_id s ex_id with _ | e
  · simp only [generate_exam_analytics, hex] at h
    exact Outcome.noConfusion h
  · rcases ha : get_exam_analytics s ex_id with _ | b
    · simp only [generate_exam_analytics, create_analytic, hex, ha] at h
      injection h with h'
      subst h'
      simp only []
      omega
    · simp only [generate_exam_analytics, hex, ha] at h
      exact Outcome.noConfusion h

/-- Witness for C8 (amended): a store with two registrations for exam 1,
one paid, where the generated figures are 2 = 1 + 1. -/
theorem generate_exam_analytics_balanced_figures_witness :
    (generate_exam_analytics
        { base_store with registrations := [registration1, registration2] } 1).fst =
      .ok { id := 20, exam_id := 1, total_registrations := 2, total_paid := 1,
            total_unpaid := 1, average_score := none } ∧
    ({ id := 20, exam_id := 1, total_registrations := 2, total_paid := 1,
       total_unpaid := 1, average_score := none } : AnalyticResponse).total_paid +
      ({ id := 20, exam_id := 1, total_registrations := 2, total_paid := 1,
         total_unpaid := 1, average_score := none } : AnalyticResponse).total_unpaid =
      ({ id := 20, exam_id := 1, total_registrations := 2, total_paid := 1,
         total_unpaid := 1, average_score := none } : AnalyticResponse).total_registrations :=
  ⟨by decide,
    generate_exam_analytics_balanced_figures
      { base_store with registrations := [registration1, registration2] } 1
      { id := 20, exam_id := 1, total_registrations := 2, total_paid := 1,
        total_unpaid := 1, average_score := none }
      (by decide)⟩

/- ------------------------------------------------------------------ -/
/- C9                                                                  -/
/- ------------------------------------------------------------------ -/

/-- C9: for every create operation of the embedded services (exam,
registration, payment, result, analytic), any call that does not succeed —
a failed validation check or a runtime fault — leaves the store exactly as
it was: all checks are pure reads and the single write happens only after
every check has passed. -/
theorem create_checks_fail_without_store_mutation :
    (∀ (now : Int) (s : Store) (d : ExamCreate),
      (create_exam now s d).fst.isOk = false → (create_exam now s d).snd = s) ∧
    (∀ (now : Int) (s : Store) (d : RegistrationCreate),
      (create_registration now s d).fst.isOk = false →
        (create_registration now s d).snd = s) ∧
    (∀ (s : Store) (d : PaymentCreate),
      (create_payment s d).fst.isOk = false → (create_payment s d).snd = s) ∧
    (∀ (s : Store) (d : ResultCreate),
      (create_result s d).fst.isOk = false → (create_result s d).snd = s) ∧
    (∀ (s : Store) (d : AnalyticCreate),
      (create_analytic s d).fst.isOk = false → (create_analytic s d).snd = s) := by
  refine ⟨?_, ?_, ?_, ?_, ?_⟩
  · intro now s d _h
    unfold create_exam
    repeat' split
    all_goals rfl
  · intro now s d _h
    unfold create_registration
    repeat' split
    all_goals rfl
  · intro s d _h
    unfold create_payment
    repeat' split
    all_goals rfl
  · intro s d h
    unfold create_result at h ⊢
    repeat' split
    all_goals simp_all [Outcome.isOk]
  · intro s d h
    unfold create_analytic at h ⊢
    repeat' split
    all_goals simp_all [Outcome.isOk]

/-- Witness for C9: a result create whose registration-status check fails
(user 1's registration is "pending", not "confirmed") leaves the store
unchanged. -/
theorem create_checks_fail_without_store_mutation_witness :
    (create_result
        { base_store with
          registrations := [{ id := 10, user_id := 1, exam_id := 1,
                              status := "pending", payment_status := "unpaid" }] }
        { user_id := 1, exam_id := 1, score := 85, grade := "B" }).fst.isOk = false ∧
    (create_result
        { base_store with
          registrations := [{ id := 10, user_id := 1, exam_id := 1,
                              status := "pending", payment_status := "unpaid" }] }
        { user_id := 1, exam_id := 1, score := 85, grade := "B" }).snd =
      { base_store with
        registrations := [{ id := 10, user_id := 1, exam_id := 1,
                            status := "pending", payment_status := "unpaid" }] } :=
  ⟨by decide,
    create_checks_fail_without_store_mutation.2.2.2.1
      { base_store with
        registrations := [{ id := 10, user_id := 1, exam_id := 1,
                            status := "pending", payment_status := "unpaid" }] }
      { user_id := 1, exam_id := 1, score := 85, grade := "B" } (by decide)⟩
